import Mathlib

/-! Esp32-Led: the MQTT event handler of `main/app_main.c`.

A shallow embedding of `led_init` and `mqtt5_event_handler`, and the properties of the
topic and payload tests, of the subscription requests and of the GPIO output.

Modelling choices.
* A C character buffer is seen from its base pointer as the function giving the byte stored
  at each offset (`Buf`); received buffers carry their length separately and need not be
  NUL-terminated.  A string literal is its bytes followed by the terminating NUL (`cstr`).
* `strncmp` follows the C library: at most `n` positions are compared, and the comparison
  stops at the first difference or at a NUL.
* The calls the handler makes to its collaborators (logging, `esp_mqtt_client_subscribe`,
  `gpio_set_level`) are recorded, in program order, as a list of `Effect`s.
* `handler_args` and `base` are not used by the handler (apart from `base` being printed by
  the initial debug log) and are left out.
-/

namespace Esp32Led

/-! ## Constants -/

/-- The bytes of the literal `MQTT_LED_COMMAND_TOPIC`, "/ifpe/ads/embarcados/esp32/led". -/
def MQTT_LED_COMMAND_TOPIC : List Nat :=
  [47, 105, 102, 112, 101, 47, 97, 100, 115, 47, 101, 109, 98, 97, 114, 99, 97, 100, 111,
   115, 47, 101, 115, 112, 51, 50, 47, 108, 101, 100]

/-- Value of the enumerator in `esp_mqtt_event_id_t`, declared by the MQTT client library
(`mqtt_client.h`).  The handler only compares the event id with these enumerators, so the
properties below rest on their being pairwise distinct, not on the particular numbers. -/
def MQTT_EVENT_ERROR : Int := 0
/-- Value of the enumerator in `esp_mqtt_event_id_t`. -/
def MQTT_EVENT_CONNECTED : Int := 1
/-- Value of the enumerator in `esp_mqtt_event_id_t`. -/
def MQTT_EVENT_DISCONNECTED : Int := 2
/-- Value of the enumerator in `esp_mqtt_event_id_t`. -/
def MQTT_EVENT_SUBSCRIBED : Int := 3
/-- Value of the enumerator in `esp_mqtt_event_id_t`. -/
def MQTT_EVENT_UNSUBSCRIBED : Int := 4
/-- Value of the enumerator in `esp_mqtt_event_id_t`. -/
def MQTT_EVENT_PUBLISHED : Int := 5
/-- Value of the enumerator in `esp_mqtt_event_id_t`. -/
def MQTT_EVENT_DATA : Int := 6

/-- Value of the enumerator in `esp_mqtt_error_type_t` (`mqtt_client.h`); only used to
choose the log line of an error event. -/
def MQTT_ERROR_TYPE_TCP_TRANSPORT : Int := 1
/-- Value of the enumerator in `esp_mqtt_error_type_t`. -/
def MQTT_ERROR_TYPE_CONNECTION_REFUSED : Int := 2

/-! ## Buffers and `strncmp` -/

/-- A character buffer seen from its base pointer: the byte at each offset. -/
abbrev Buf := Nat → Nat

/-- A string literal as a buffer: its bytes, then the terminating NUL. -/
def cstr (s : List Nat) : Buf := fun i => s.getD i 0

/-- The buffer starting one byte further (`p + 1`). -/
def Buf.next (b : Buf) : Buf := fun i => b (i + 1)

/-- C `strncmp(s1, s2, n)`: compares at most `n` bytes, stops at the first difference or
after a NUL; the result is the difference of the first differing bytes, or 0. -/
def strncmp : Buf → Buf → Nat → Int
  | _, _, 0 => 0
  | s1, s2, n + 1 =>
    if s1 0 ≠ s2 0 then (s1 0 : Int) - (s2 0 : Int)
    else if s1 0 = 0 then 0
    else strncmp s1.next s2.next n

/-- What `%.*s` prints for precision `len` and buffer `b`: at most `len` bytes, stopping
before a NUL. -/
def fmtPrecS (len : Nat) (b : Buf) : List Nat :=
  ((List.range len).map b).takeWhile (fun c => c ≠ 0)

/-! ## Events and effects -/

/-- The fields of `esp_mqtt_error_codes_t` read by the handler. -/
structure esp_mqtt_error_codes_t where
  esp_tls_last_esp_err : Int
  error_type : Int
  connect_return_code : Int

/-- The fields of `esp_mqtt_event_t` read by the handler.  `topic_len` and `data_len` are
the lengths as `strncmp` receives them (`size_t`). -/
structure esp_mqtt_event_t where
  client : Nat
  msg_id : Int
  topic : Buf
  topic_len : Nat
  data : Buf
  data_len : Nat
  error_handle : esp_mqtt_error_codes_t

/-- Severity of a log line (`ESP_LOGD`, `ESP_LOGI`, `ESP_LOGW`, `ESP_LOGE`). -/
inductive LogLevel
  | D | I | W | E
  deriving DecidableEq, Repr

/-- The log lines of `mqtt5_event_handler`, with their arguments. -/
inductive LogMsg
  | dispatched (event_id : Int)
  | connected
  | disconnected
  | subscribed (topic : List Nat)
  | ready
  | unsubscribed (msg_id : Int)
  | published (msg_id : Int)
  | dataReceived
  | topico (s : List Nat)
  | dado (s : List Nat)
  | correctTopic
  | cmdOn
  | cmdOff
  | unknownCommand (s : List Nat)
  | unexpectedTopic
  | error
  | tlsLastErr (code : Int)
  | connectionRefused (code : Int)
  | unknownErrorType (t : Int)
  | otherEvent (id : Int)
  deriving DecidableEq, Repr

/-- Direction of a pin (`gpio_mode_t`); only `GPIO_MODE_OUTPUT` is used. -/
inductive gpio_mode_t
  | GPIO_MODE_OUTPUT
  deriving DecidableEq, Repr

/-- A call to a collaborator. -/
inductive Effect
  | log (lvl : LogLevel) (msg : LogMsg)
  | esp_mqtt_client_subscribe (client : Nat) (topic : List Nat) (qos : Int)
  | gpio_reset_pin (pin : Nat)
  | gpio_set_direction (pin : Nat) (mode : gpio_mode_t)
  | gpio_set_level (pin : Nat) (level : Nat)
  deriving DecidableEq, Repr

/-! ## The program -/

/-- The function `led_init` (lines 51-57). -/
def led_init ( CONFIG_BLINK_GPIO : Nat) : List Effect :=
  [ Effect.gpio_reset_pin CONFIG_BLINK_GPIO,
    Effect.gpio_set_direction CONFIG_BLINK_GPIO gpio_mode_t.GPIO_MODE_OUTPUT,
    Effect.gpio_set_level CONFIG_BLINK_GPIO 0 ]

/-- The `MQTT_EVENT_DATA` case of the handler (lines 96-117). -/
def handle_data ( CONFIG_BLINK_GPIO : Nat) (event : esp_mqtt_event_t) : List Effect :=
  [ Effect.log .I .dataReceived,
    Effect.log .I (.topico (fmtPrecS event.topic_len event.topic)),
    Effect.log .I (.dado (fmtPrecS event.data_len event.data)) ] ++
  (if strncmp event.topic (cstr MQTT_LED_COMMAND_TOPIC) event.topic_len = 0 then
    Effect.log .I .correctTopic ::
    (if strncmp event.data (cstr [49]) event.data_len = 0 then
      [ Effect.log .I .cmdOn, Effect.gpio_set_level CONFIG_BLINK_GPIO 1 ]
    else if strncmp event.data (cstr [48]) event.data_len = 0 then
      [ Effect.log .I .cmdOff, Effect.gpio_set_level CONFIG_BLINK_GPIO 0 ]
    else
      [ Effect.log .W (.unknownCommand (fmtPrecS event.data_len event.data)) ])
  else
    [ Effect.log .W .unexpectedTopic ])

/-- The `MQTT_EVENT_ERROR` case of the handler (lines 119-127). -/
def handle_error (event : esp_mqtt_event_t) : List Effect :=
  Effect.log .E .error ::
  (if event.error_handle.error_type = MQTT_ERROR_TYPE_TCP_TRANSPORT then
    [ Effect.log .E (.tlsLastErr event.error_handle.esp_tls_last_esp_err) ]
  else if event.error_handle.error_type = MQTT_ERROR_TYPE_CONNECTION_REFUSED then
    [ Effect.log .E (.connectionRefused event.error_handle.connect_return_code) ]
  else
    [ Effect.log .W (.unknownErrorType event.error_handle.error_type) ])

/-- The function `mqtt5_event_handler` (lines 70-132): the calls it makes, in order. -/
def mqtt5_event_handler ( CONFIG_BLINK_GPIO : Nat) (event_id : Int)
    (event : esp_mqtt_event_t) : List Effect :=
  Effect.log .D (.dispatched event_id) ::
  (if event_id = MQTT_EVENT_CONNECTED then
    [ Effect.log .I .connected,
      Effect.esp_mqtt_client_subscribe event.client MQTT_LED_COMMAND_TOPIC 1 ]
  else if event_id = MQTT_EVENT_DISCONNECTED then
    [ Effect.log .I .disconnected ]
  else if event_id = MQTT_EVENT_SUBSCRIBED then
    [ Effect.log .I (.subscribed MQTT_LED_COMMAND_TOPIC), Effect.log .I .ready ]
  else if event_id = MQTT_EVENT_UNSUBSCRIBED then
    [ Effect.log .I (.unsubscribed event.msg_id) ]
  else if event_id = MQTT_EVENT_PUBLISHED then
    [ Effect.log .I (.published event.msg_id) ]
  else if event_id = MQTT_EVENT_DATA then
    handle_data CONFIG_BLINK_GPIO event
  else if event_id = MQTT_EVENT_ERROR then
    handle_error event
  else
    [ Effect.log .I (.otherEvent event_id) ])

/-! ## Observing a trace -/

/-- The output levels of the pins: the level last written to each. -/
abbrev Gpio := Nat → Nat

/-- The effect of one collaborator call on the output levels: `gpio_set_level` writes the
level of its pin, nothing else changes a level. -/
def Gpio.step (g : Gpio) : Effect → Gpio
  | Effect.gpio_set_level pin level => Function.update g pin level
  | _ => g

/-- The output levels after a trace of calls. -/
def Gpio.run (g : Gpio) (t : List Effect) : Gpio := t.foldl Gpio.step g

/-- The `gpio_set_level` calls of a trace, as (pin, level) pairs, in order. -/
def gpioCalls : List Effect → List (Nat × Nat)
  | [] => []
  | Effect.gpio_set_level pin level :: t => (pin, level) :: gpioCalls t
  | _ :: t => gpioCalls t

/-- The subscribe requests of a trace, as (client, topic, qos) triples, in order. -/
def subscribeCalls : List Effect → List (Nat × List Nat × Int)
  | [] => []
  | Effect.esp_mqtt_client_subscribe c tp q :: t => (c, tp, q) :: subscribeCalls t
  | _ :: t => subscribeCalls t

/-- The trace of the handler over a sequence of delivered events, one call per event. -/
def deliver ( CONFIG_BLINK_GPIO : Nat) : List (Int × esp_mqtt_event_t) → List Effect
  | [] => []
  | (event_id, event) :: rest =>
    mqtt5_event_handler CONFIG_BLINK_GPIO event_id event ++ deliver CONFIG_BLINK_GPIO rest

/-- The events of a sequence whose id is `MQTT_EVENT_CONNECTED`. -/
def connectedEvents : List (Int × esp_mqtt_event_t) → List esp_mqtt_event_t
  | [] => []
  | (event_id, event) :: rest =>
    if event_id = MQTT_EVENT_CONNECTED then event :: connectedEvents rest
    else connectedEvents rest

/-- The topic of a received message is exactly the byte string `s`: same length, same
bytes. -/
def topicIs (event : esp_mqtt_event_t) (s : List Nat) : Prop :=
  event.topic_len = s.length ∧ ∀ i, i < s.length → event.topic i = s.getD i 0

/-- The payload of a received message is exactly the byte string `s`. -/
def dataIs (event : esp_mqtt_event_t) (s : List Nat) : Prop :=
  event.data_len = s.length ∧ ∀ i, i < s.length → event.data i = s.getD i 0

instance (event : esp_mqtt_event_t) (s : List Nat) : Decidable (topicIs event s) := by
  unfold topicIs
  exact inferInstance

instance (event : esp_mqtt_event_t) (s : List Nat) : Decidable (dataIs event s) := by
  unfold dataIs
  exact inferInstance

/-- A message event with the given topic and payload bytes, the buffers holding exactly
those bytes followed by `pad` (what lies behind a received buffer is arbitrary). -/
def mkData (topic data : List Nat) (pad : Nat) : esp_mqtt_event_t :=
  { client := 0, msg_id := 0,
    topic := fun i => topic.getD i pad, topic_len := topic.length,
    data := fun i => data.getD i pad, data_len := data.length,
    error_handle := ⟨0, 0, 0⟩ }

/-- An event without message: the lifecycle events carry no topic or payload. -/
def mkPlain (client : Nat) : esp_mqtt_event_t :=
  { client := client, msg_id := 0, topic := fun _ => 0, topic_len := 0,
    data := fun _ => 0, data_len := 0, error_handle := ⟨0, 0, 0⟩ }

/-! ## Lemmas on buffers and on the string comparison -/

theorem cstr_nil (i : Nat) : cstr [] i = 0 := rfl

theorem cstr_cons_zero (a : Nat) (s : List Nat) : cstr (a :: s) 0 = a := rfl

theorem cstr_cons_succ (a : Nat) (s : List Nat) (i : Nat) :
    cstr (a :: s) (i + 1) = cstr s i := rfl

theorem cstr_cons_next (a : Nat) (s : List Nat) : (cstr (a :: s)).next = cstr s := rfl

theorem strncmp_zero (s1 s2 : Buf) : strncmp s1 s2 0 = 0 := rfl

theorem strncmp_succ (s1 s2 : Buf) (n : Nat) :
    strncmp s1 s2 (n + 1) =
      if s1 0 ≠ s2 0 then (s1 0 : Int) - (s2 0 : Int)
      else if s1 0 = 0 then 0 else strncmp s1.next s2.next n := rfl

/-- The comparison reads only the first `n` bytes of its first argument. -/
theorem strncmp_congr_left (n : Nat) : ∀ (a a' b : Buf),
    (∀ i, i < n → a i = a' i) → strncmp a b n = strncmp a' b n := by
  induction n with
  | zero => intro a a' b _; rfl
  | succ n ih =>
    intro a a' b h
    have h0 : a 0 = a' 0 := h 0 (Nat.succ_pos n)
    have hn : strncmp a.next b.next n = strncmp a'.next b.next n :=
      ih a.next a'.next b.next (fun i hi => h (i + 1) (Nat.succ_lt_succ hi))
    rw [strncmp_succ, strncmp_succ, h0, hn]

/-- Against a literal without NUL byte, `strncmp ... n = 0` holds exactly when the first
`n` bytes agree with the literal (for `n` up to its length), or the buffer holds the whole
literal followed by a NUL. -/
theorem strncmp_cstr_eq_zero_iff (n : Nat) : ∀ (b : Buf) (s : List Nat),
    (∀ x ∈ s, x ≠ 0) →
    (strncmp b (cstr s) n = 0 ↔
      (n ≤ s.length ∧ ∀ i, i < n → b i = cstr s i) ∨
      (s.length < n ∧ (∀ i, i < s.length → b i = cstr s i) ∧ b s.length = 0)) := by
  induction n with
  | zero =>
    intro b s _
    simp [strncmp_zero]
  | succ n ih =>
    intro b s hs
    cases s with
    | nil =>
      rw [strncmp_succ]
      simp only [cstr_nil, List.length_nil]
      by_cases hb : b 0 = 0
      · simp [hb]
      · simp [hb]
    | cons a s =>
      have ha : a ≠ 0 := hs a (List.mem_cons_self a s)
      have hs' : ∀ x ∈ s, x ≠ 0 := fun x hx => hs x (List.mem_cons_of_mem a hx)
      rw [strncmp_succ, cstr_cons_zero, cstr_cons_next]
      by_cases hb : b 0 = a
      · have hb0 : b 0 ≠ 0 := by rw [hb]; exact ha
        simp only [hb, ne_eq, not_true_eq_false, if_false, ha]
        rw [ih b.next s hs']
        simp only [List.length_cons, Nat.succ_le_succ_iff, Nat.succ_lt_succ_iff]
        constructor
        · rintro (⟨hle, h⟩ | ⟨hlt, h, hz⟩)
          · left
            refine ⟨hle, ?_⟩
            intro i hi
            cases i with
            | zero => exact hb
            | succ i => exact h i (Nat.lt_of_succ_lt_succ hi)
          · right
            refine ⟨hlt, ?_, hz⟩
            intro i hi
            cases i with
            | zero => exact hb
            | succ i => exact h i (Nat.lt_of_succ_lt_succ hi)
        · rintro (⟨hle, h⟩ | ⟨hlt, h, hz⟩)
          · left
            exact ⟨hle, fun i hi => h (i + 1) (Nat.succ_lt_succ hi)⟩
          · right
            exact ⟨hlt, fun i hi => h (i + 1) (Nat.succ_lt_succ hi), hz⟩
      · have hne : (b 0 : Int) - (a : Int) ≠ 0 := by
          intro h
          apply hb
          omega
        simp only [ne_eq, hb, not_false_eq_true, if_true, hne, false_iff, not_or, not_and]
        constructor
        · intro _ h
          exact hb (h 0 (Nat.succ_pos n))
        · intro _ h
          exact absurd (h 0 (by simp)) hb

/-- The command topic literal contains no NUL byte. -/
theorem command_topic_no_nul : ∀ x ∈ MQTT_LED_COMMAND_TOPIC, x ≠ 0 := by decide

theorem command_topic_length : MQTT_LED_COMMAND_TOPIC.length = 30 := rfl

/-- The topic test of line 101, characterised. -/
theorem topic_test_iff (b : Buf) (n : Nat) :
    strncmp b (cstr MQTT_LED_COMMAND_TOPIC) n = 0 ↔
      (n ≤ 30 ∧ ∀ i, i < n → b i = cstr MQTT_LED_COMMAND_TOPIC i) ∨
      (30 < n ∧ (∀ i, i < 30 → b i = cstr MQTT_LED_COMMAND_TOPIC i) ∧ b 30 = 0) := by
  have h := strncmp_cstr_eq_zero_iff n b MQTT_LED_COMMAND_TOPIC command_topic_no_nul
  rw [command_topic_length] at h
  exact h

/-- The payload tests of lines 105 and 108, characterised: comparison against a literal
of one non-NUL byte `c`. -/
theorem byte_test_iff (b : Buf) (n c : Nat) (hc : c ≠ 0) :
    strncmp b (cstr [c]) n = 0 ↔ n = 0 ∨ (b 0 = c ∧ (n = 1 ∨ b 1 = 0)) := by
  have hs : ∀ x ∈ [c], x ≠ 0 := by
    intro x hx
    rw [List.mem_singleton] at hx
    rw [hx]
    exact hc
  rw [strncmp_cstr_eq_zero_iff n b [c] hs]
  simp only [List.length_singleton]
  constructor
  · rintro (⟨hle, h⟩ | ⟨hlt, h, hz⟩)
    · rcases Nat.eq_zero_or_pos n with h0 | hpos
      · exact Or.inl h0
      · exact Or.inr ⟨h 0 hpos, Or.inl (by omega)⟩
    · exact Or.inr ⟨h 0 Nat.one_pos, Or.inr hz⟩
  · rintro (h0 | ⟨hb, h1 | hz⟩)
    · left
      subst h0
      exact ⟨Nat.zero_le 1, fun i hi => absurd hi (Nat.not_lt_zero i)⟩
    · left
      subst h1
      refine ⟨Nat.le_refl 1, ?_⟩
      intro i hi
      have hi0 : i = 0 := by omega
      subst hi0
      exact hb
    · rcases Nat.lt_or_ge 1 n with hlt | hge
      · right
        refine ⟨hlt, ?_, hz⟩
        intro i hi
        have hi0 : i = 0 := by omega
        subst hi0
        exact hb
      · left
        refine ⟨hge, ?_⟩
        intro i hi
        have hi0 : i = 0 := by omega
        subst hi0
        exact hb

/-- A topic that is exactly the command topic passes the topic test. -/
theorem topic_test_of_topicIs (e : esp_mqtt_event_t) (h : topicIs e MQTT_LED_COMMAND_TOPIC) :
    strncmp e.topic (cstr MQTT_LED_COMMAND_TOPIC) e.topic_len = 0 := by
  rw [topic_test_iff]
  left
  obtain ⟨hl, hb⟩ := h
  rw [command_topic_length] at hl hb
  rw [hl]
  exact ⟨Nat.le_refl 30, hb⟩

theorem fmtPrecS_congr (n : Nat) (b b' : Buf) (h : ∀ i, i < n → b i = b' i) :
    fmtPrecS n b = fmtPrecS n b' := by
  unfold fmtPrecS
  congr 1
  apply List.map_congr_left
  intro i hi
  exact h i (List.mem_range.mp hi)

/-! ## Lemmas on traces -/

theorem handler_data ( CONFIG_BLINK_GPIO : Nat) (e : esp_mqtt_event_t) :
    mqtt5_event_handler CONFIG_BLINK_GPIO MQTT_EVENT_DATA e =
      Effect.log .D (.dispatched MQTT_EVENT_DATA) :: handle_data CONFIG_BLINK_GPIO e := rfl

/-- The `gpio_set_level` calls made for a message event. -/
theorem gpioCalls_handler_data ( CONFIG_BLINK_GPIO : Nat) (e : esp_mqtt_event_t) :
    gpioCalls (mqtt5_event_handler CONFIG_BLINK_GPIO MQTT_EVENT_DATA e) =
      if strncmp e.topic (cstr MQTT_LED_COMMAND_TOPIC) e.topic_len = 0 then
        if strncmp e.data (cstr [49]) e.data_len = 0 then [( CONFIG_BLINK_GPIO, 1)]
        else if strncmp e.data (cstr [48]) e.data_len = 0 then [( CONFIG_BLINK_GPIO, 0)]
        else []
      else [] := by
  rw [handler_data]
  unfold handle_data
  split_ifs <;> rfl

/-- No `gpio_set_level` call is made for an event that is not a message. -/
theorem gpioCalls_handler_other ( CONFIG_BLINK_GPIO : Nat) (event_id : Int)
    (e : esp_mqtt_event_t) (h : event_id ≠ MQTT_EVENT_DATA) :
    gpioCalls (mqtt5_event_handler CONFIG_BLINK_GPIO event_id e) = [] := by
  unfold mqtt5_event_handler handle_error
  split_ifs <;> rfl

theorem Gpio.run_nil (g : Gpio) : Gpio.run g [] = g := rfl

theorem Gpio.run_cons (g : Gpio) (x : Effect) (t : List Effect) :
    Gpio.run g (x :: t) = Gpio.run (Gpio.step g x) t := rfl

theorem Gpio.run_append (g : Gpio) (t u : List Effect) :
    Gpio.run g (t ++ u) = Gpio.run (Gpio.run g t) u := by
  unfold Gpio.run
  exact List.foldl_append _ _ _ _

/-- The output levels after a trace are determined by its `gpio_set_level` calls. -/
theorem Gpio.run_eq_of_gpioCalls (t : List Effect) : ∀ (g : Gpio),
    Gpio.run g t =
      (gpioCalls t).foldl (fun (acc : Gpio) p => Function.update acc p.1 p.2) g := by
  induction t with
  | nil => intro g; rfl
  | cons x t ih =>
    intro g
    rw [Gpio.run_cons, ih]
    cases x <;> rfl

/-- A trace without `gpio_set_level` call leaves every output level as it was. -/
theorem Gpio.run_of_no_gpioCalls (g : Gpio) (t : List Effect) (h : gpioCalls t = []) :
    Gpio.run g t = g := by
  rw [Gpio.run_eq_of_gpioCalls, h]
  rfl

/-- A trace with the single call `gpio_set_level(pin, level)` leaves the pin at `level`. -/
theorem Gpio.run_of_one_gpioCall (g : Gpio) (t : List Effect) (pin level : Nat)
    (h : gpioCalls t = [(pin, level)]) : Gpio.run g t pin = level := by
  rw [Gpio.run_eq_of_gpioCalls, h]
  simp

theorem deliver_append ( CONFIG_BLINK_GPIO : Nat) (a b : List (Int × esp_mqtt_event_t)) :
    deliver CONFIG_BLINK_GPIO (a ++ b) =
      deliver CONFIG_BLINK_GPIO a ++ deliver CONFIG_BLINK_GPIO b := by
  induction a with
  | nil => rfl
  | cons x a ih =>
    obtain ⟨event_id, event⟩ := x
    show mqtt5_event_handler CONFIG_BLINK_GPIO event_id event ++
        deliver CONFIG_BLINK_GPIO (a ++ b) = _
    rw [ih]
    show _ = (mqtt5_event_handler CONFIG_BLINK_GPIO event_id event ++
        deliver CONFIG_BLINK_GPIO a) ++ deliver CONFIG_BLINK_GPIO b
    rw [List.append_assoc]

theorem subscribeCalls_append (t u : List Effect) :
    subscribeCalls (t ++ u) = subscribeCalls t ++ subscribeCalls u := by
  induction t with
  | nil => rfl
  | cons x t ih =>
    cases x <;> simp [subscribeCalls, ih]

/-- The subscribe requests made for one event. -/
theorem subscribeCalls_handler ( CONFIG_BLINK_GPIO : Nat) (event_id : Int)
    (e : esp_mqtt_event_t) :
    subscribeCalls (mqtt5_event_handler CONFIG_BLINK_GPIO event_id e) =
      if event_id = MQTT_EVENT_CONNECTED then [(e.client, MQTT_LED_COMMAND_TOPIC, 1)]
      else [] := by
  by_cases hc : event_id = MQTT_EVENT_CONNECTED
  · rw [if_pos hc, hc]
    rfl
  · rw [if_neg hc]
    unfold mqtt5_event_handler handle_data handle_error
    rw [if_neg hc]
    split_ifs <;> rfl

theorem topicIs_mkData (topic data : List Nat) (pad : Nat) :
    topicIs (mkData topic data pad) topic := by
  refine ⟨rfl, ?_⟩
  intro i hi
  show topic.getD i pad = topic.getD i 0
  rw [List.getD_eq_getElem _ _ hi, List.getD_eq_getElem _ _ hi]

theorem dataIs_mkData (topic data : List Nat) (pad : Nat) :
    dataIs (mkData topic data pad) data := by
  refine ⟨rfl, ?_⟩
  intro i hi
  show data.getD i pad = data.getD i 0
  rw [List.getD_eq_getElem _ _ hi, List.getD_eq_getElem _ _ hi]

theorem dataIs_one (e : esp_mqtt_event_t) (a : Nat) (h : dataIs e [a]) :
    e.data_len = 1 ∧ e.data 0 = a :=
  ⟨h.1, h.2 0 Nat.one_pos⟩

theorem dataIs_two (e : esp_mqtt_event_t) (a b : Nat) (h : dataIs e [a, b]) :
    e.data_len = 2 ∧ e.data 0 = a ∧ e.data 1 = b :=
  ⟨h.1, h.2 0 (by simp), h.2 1 (by simp)⟩

/-- The whole trace of the unknown-command branch. -/
theorem handler_data_unknown ( CONFIG_BLINK_GPIO : Nat) (e : esp_mqtt_event_t)
    (ht : strncmp e.topic (cstr MQTT_LED_COMMAND_TOPIC) e.topic_len = 0)
    (h1 : strncmp e.data (cstr [49]) e.data_len ≠ 0)
    (h0 : strncmp e.data (cstr [48]) e.data_len ≠ 0) :
    mqtt5_event_handler CONFIG_BLINK_GPIO MQTT_EVENT_DATA e =
      [ Effect.log .D (.dispatched MQTT_EVENT_DATA),
        Effect.log .I .dataReceived,
        Effect.log .I (.topico (fmtPrecS e.topic_len e.topic)),
        Effect.log .I (.dado (fmtPrecS e.data_len e.data)),
        Effect.log .I .correctTopic,
        Effect.log .W (.unknownCommand (fmtPrecS e.data_len e.data)) ] := by
  rw [handler_data]
  unfold handle_data
  rw [if_pos ht, if_neg h1, if_neg h0]
  rfl

/-- The whole trace of the wrong-topic branch. -/
theorem handler_data_wrong_topic ( CONFIG_BLINK_GPIO : Nat) (e : esp_mqtt_event_t)
    (ht : strncmp e.topic (cstr MQTT_LED_COMMAND_TOPIC) e.topic_len ≠ 0) :
    mqtt5_event_handler CONFIG_BLINK_GPIO MQTT_EVENT_DATA e =
      [ Effect.log .D (.dispatched MQTT_EVENT_DATA),
        Effect.log .I .dataReceived,
        Effect.log .I (.topico (fmtPrecS e.topic_len e.topic)),
        Effect.log .I (.dado (fmtPrecS e.data_len e.data)),
        Effect.log .W .unexpectedTopic ] := by
  rw [handler_data]
  unfold handle_data
  rw [if_neg ht]
  rfl

/-- The one call made for the exact command "1" on the exact command topic. -/
theorem gpioCalls_data_on ( CONFIG_BLINK_GPIO : Nat) (e : esp_mqtt_event_t)
    (ht : topicIs e MQTT_LED_COMMAND_TOPIC) (hd : dataIs e [49]) :
    gpioCalls (mqtt5_event_handler CONFIG_BLINK_GPIO MQTT_EVENT_DATA e)
      = [( CONFIG_BLINK_GPIO, 1)] := by
  obtain ⟨hl, ha⟩ := dataIs_one e _ hd
  have h1 : strncmp e.data (cstr [49]) e.data_len = 0 := by
    rw [byte_test_iff _ _ 49 (by decide)]
    exact Or.inr ⟨ha, Or.inl hl⟩
  rw [gpioCalls_handler_data, if_pos (topic_test_of_topicIs e ht), if_pos h1]

theorem deliver_singleton ( CONFIG_BLINK_GPIO : Nat) (event_id : Int)
    (e : esp_mqtt_event_t) :
    deliver CONFIG_BLINK_GPIO [(event_id, e)] =
      mqtt5_event_handler CONFIG_BLINK_GPIO event_id e := by
  show mqtt5_event_handler CONFIG_BLINK_GPIO event_id e ++ [] = _
  rw [List.append_nil]

/-- Handling one more event extends the run by the trace of that event alone. -/
theorem run_deliver_snoc ( CONFIG_BLINK_GPIO : Nat) (g : Gpio)
    (pre : List (Int × esp_mqtt_event_t)) (event_id : Int) (e : esp_mqtt_event_t) :
    Gpio.run g (deliver CONFIG_BLINK_GPIO (pre ++ [(event_id, e)])) =
      Gpio.run (Gpio.run g (deliver CONFIG_BLINK_GPIO pre))
        (mqtt5_event_handler CONFIG_BLINK_GPIO event_id e) := by
  rw [deliver_append, Gpio.run_append, deliver_singleton]

/-- The subscribe requests over a sequence of events: one per connected event. -/
theorem subscribeCalls_deliver ( CONFIG_BLINK_GPIO : Nat)
    (evs : List (Int × esp_mqtt_event_t)) :
    subscribeCalls (deliver CONFIG_BLINK_GPIO evs) =
      (connectedEvents evs).map (fun ev => (ev.client, MQTT_LED_COMMAND_TOPIC, (1 : Int))) := by
  induction evs with
  | nil => rfl
  | cons x evs ih =>
    obtain ⟨event_id, event⟩ := x
    show subscribeCalls (mqtt5_event_handler CONFIG_BLINK_GPIO event_id event ++
        deliver CONFIG_BLINK_GPIO evs) = _
    have hce : connectedEvents ((event_id, event) :: evs) =
        if event_id = MQTT_EVENT_CONNECTED then event :: connectedEvents evs
        else connectedEvents evs := rfl
    rw [subscribeCalls_append, subscribeCalls_handler, ih, hce]
    by_cases hc : event_id = MQTT_EVENT_CONNECTED
    · rw [if_pos hc, if_pos hc]
      rfl
    · rw [if_neg hc, if_neg hc]
      rfl

/-! ## The claims -/

/-- C1, the code at the failing inputs: on the exact command topic the empty payload
(which is not the single byte 0x31) makes the handler call
`gpio_set_level(CONFIG_BLINK_GPIO, 1)`, and so does the three-byte payload 0x31, NUL,
0x78; the claim says no `gpio_set_level` call is made for them. -/
theorem C1_inexact_payload_sets_output :
    topicIs (mkData MQTT_LED_COMMAND_TOPIC [] 255) MQTT_LED_COMMAND_TOPIC ∧
    ¬ dataIs (mkData MQTT_LED_COMMAND_TOPIC [] 255) [49] ∧
    gpioCalls (mqtt5_event_handler 2 MQTT_EVENT_DATA
      (mkData MQTT_LED_COMMAND_TOPIC [] 255)) = [(2, 1)] ∧
    ¬ dataIs (mkData MQTT_LED_COMMAND_TOPIC [49, 0, 120] 255) [49] ∧
    gpioCalls (mqtt5_event_handler 2 MQTT_EVENT_DATA
      (mkData MQTT_LED_COMMAND_TOPIC [49, 0, 120] 255)) = [(2, 1)] := by
  refine ⟨topicIs_mkData _ _ _, ?_, by decide, ?_, by decide⟩
  · intro h
    exact absurd h.1 (by decide)
  · intro h
    exact absurd h.1 (by decide)

/-- C2, the code at the failing inputs: a message whose topic is empty, or is the proper
prefix "/ifpe" of the command topic, is not taken to the wrong-topic branch: with payload
0x31 the handler calls `gpio_set_level(CONFIG_BLINK_GPIO, 1)` and the output goes from 0
to 1, and with payload 0x30 it calls `gpio_set_level(CONFIG_BLINK_GPIO, 0)`. -/
theorem C2_prefix_topic_accepted :
    ¬ topicIs (mkData [] [49] 255) MQTT_LED_COMMAND_TOPIC ∧
    gpioCalls (mqtt5_event_handler 2 MQTT_EVENT_DATA (mkData [] [49] 255)) = [(2, 1)] ∧
    Gpio.run (fun _ => 0) (mqtt5_event_handler 2 MQTT_EVENT_DATA (mkData [] [49] 255)) 2
      = 1 ∧
    ¬ topicIs (mkData [47, 105, 102, 112, 101] [48] 255) MQTT_LED_COMMAND_TOPIC ∧
    gpioCalls (mqtt5_event_handler 2 MQTT_EVENT_DATA
      (mkData [47, 105, 102, 112, 101] [48] 255)) = [(2, 0)] := by
  refine ⟨?_, by decide, by decide, ?_, by decide⟩
  · intro h
    exact absurd h.1 (by decide)
  · intro h
    exact absurd h.1 (by decide)

/-- C3: for a message on the exact command topic whose payload is the two bytes "10" or
the two bytes "01", the handler matches neither command: its trace is that of the
unknown-command branch, it contains no `gpio_set_level` call, and every output keeps its
previous level. -/
theorem C3_two_byte_payload_unknown ( CONFIG_BLINK_GPIO : Nat) (e : esp_mqtt_event_t)
    (g : Gpio) (ht : topicIs e MQTT_LED_COMMAND_TOPIC)
    (hd : dataIs e [49, 48] ∨ dataIs e [48, 49]) :
    mqtt5_event_handler CONFIG_BLINK_GPIO MQTT_EVENT_DATA e =
      [ Effect.log .D (.dispatched MQTT_EVENT_DATA),
        Effect.log .I .dataReceived,
        Effect.log .I (.topico (fmtPrecS e.topic_len e.topic)),
        Effect.log .I (.dado (fmtPrecS e.data_len e.data)),
        Effect.log .I .correctTopic,
        Effect.log .W (.unknownCommand (fmtPrecS e.data_len e.data)) ] ∧
    gpioCalls (mqtt5_event_handler CONFIG_BLINK_GPIO MQTT_EVENT_DATA e) = [] ∧
    Gpio.run g (mqtt5_event_handler CONFIG_BLINK_GPIO MQTT_EVENT_DATA e) = g := by
  have htt := topic_test_of_topicIs e ht
  have h1 : strncmp e.data (cstr [49]) e.data_len ≠ 0 := by
    rw [Ne, byte_test_iff _ _ 49 (by decide)]
    rcases hd with hd | hd <;> obtain ⟨hl, ha, hb⟩ := dataIs_two e _ _ hd <;>
      rw [hl, ha, hb] <;> decide
  have h0 : strncmp e.data (cstr [48]) e.data_len ≠ 0 := by
    rw [Ne, byte_test_iff _ _ 48 (by decide)]
    rcases hd with hd | hd <;> obtain ⟨hl, ha, hb⟩ := dataIs_two e _ _ hd <;>
      rw [hl, ha, hb] <;> decide
  have hg : gpioCalls (mqtt5_event_handler CONFIG_BLINK_GPIO MQTT_EVENT_DATA e) = [] := by
    rw [gpioCalls_handler_data, if_pos htt, if_neg h1, if_neg h0]
  exact ⟨handler_data_unknown _ e htt h1 h0, hg, Gpio.run_of_no_gpioCalls g _ hg⟩

/-- C3 at the payloads "10" and "01" on the command topic, the output being at 1. -/
theorem C3_two_byte_payload_unknown_witness :
    (gpioCalls (mqtt5_event_handler 2 MQTT_EVENT_DATA
        (mkData MQTT_LED_COMMAND_TOPIC [49, 48] 255)) = [] ∧
      Gpio.run (fun _ => 1) (mqtt5_event_handler 2 MQTT_EVENT_DATA
        (mkData MQTT_LED_COMMAND_TOPIC [49, 48] 255)) = fun _ => 1) ∧
    (gpioCalls (mqtt5_event_handler 2 MQTT_EVENT_DATA
        (mkData MQTT_LED_COMMAND_TOPIC [48, 49] 255)) = [] ∧
      Gpio.run (fun _ => 1) (mqtt5_event_handler 2 MQTT_EVENT_DATA
        (mkData MQTT_LED_COMMAND_TOPIC [48, 49] 255)) = fun _ => 1) :=
  ⟨(C3_two_byte_payload_unknown 2 (mkData MQTT_LED_COMMAND_TOPIC [49, 48] 255) (fun _ => 1)
      (topicIs_mkData _ _ _) (Or.inl (dataIs_mkData _ _ _))).2,
   (C3_two_byte_payload_unknown 2 (mkData MQTT_LED_COMMAND_TOPIC [48, 49] 255) (fun _ => 1)
      (topicIs_mkData _ _ _) (Or.inr (dataIs_mkData _ _ _))).2⟩

/-- C4: for every prior output level, a message with topic exactly the command topic and
payload exactly "1" makes exactly one `gpio_set_level` call, `(CONFIG_BLINK_GPIO, 1)`, and
leaves the output at level 1; with payload exactly "0" the one call is
`(CONFIG_BLINK_GPIO, 0)` and the output is left at level 0. -/
theorem C4_exact_commands_set_output ( CONFIG_BLINK_GPIO : Nat) (e : esp_mqtt_event_t)
    (g : Gpio) (ht : topicIs e MQTT_LED_COMMAND_TOPIC) :
    (dataIs e [49] →
      gpioCalls (mqtt5_event_handler CONFIG_BLINK_GPIO MQTT_EVENT_DATA e)
        = [( CONFIG_BLINK_GPIO, 1)] ∧
      Gpio.run g (mqtt5_event_handler CONFIG_BLINK_GPIO MQTT_EVENT_DATA e)
        CONFIG_BLINK_GPIO = 1) ∧
    (dataIs e [48] →
      gpioCalls (mqtt5_event_handler CONFIG_BLINK_GPIO MQTT_EVENT_DATA e)
        = [( CONFIG_BLINK_GPIO, 0)] ∧
      Gpio.run g (mqtt5_event_handler CONFIG_BLINK_GPIO MQTT_EVENT_DATA e)
        CONFIG_BLINK_GPIO = 0) := by
  have htt := topic_test_of_topicIs e ht
  constructor
  · intro hd
    obtain ⟨hl, ha⟩ := dataIs_one e _ hd
    have h1 : strncmp e.data (cstr [49]) e.data_len = 0 := by
      rw [byte_test_iff _ _ 49 (by decide)]
      exact Or.inr ⟨ha, Or.inl hl⟩
    have hg : gpioCalls (mqtt5_event_handler CONFIG_BLINK_GPIO MQTT_EVENT_DATA e)
        = [( CONFIG_BLINK_GPIO, 1)] := by
      rw [gpioCalls_handler_data, if_pos htt, if_pos h1]
    exact ⟨hg, Gpio.run_of_one_gpioCall g _ _ _ hg⟩
  · intro hd
    obtain ⟨hl, ha⟩ := dataIs_one e _ hd
    have h1 : strncmp e.data (cstr [49]) e.data_len ≠ 0 := by
      rw [Ne, byte_test_iff _ _ 49 (by decide), hl, ha]
      simp
    have h0 : strncmp e.data (cstr [48]) e.data_len = 0 := by
      rw [byte_test_iff _ _ 48 (by decide)]
      exact Or.inr ⟨ha, Or.inl hl⟩
    have hg : gpioCalls (mqtt5_event_handler CONFIG_BLINK_GPIO MQTT_EVENT_DATA e)
        = [( CONFIG_BLINK_GPIO, 0)] := by
      rw [gpioCalls_handler_data, if_pos htt, if_neg h1, if_pos h0]
    exact ⟨hg, Gpio.run_of_one_gpioCall g _ _ _ hg⟩

/-- C4 at scenario A (payload "1" with the output at 0) and scenario B (payload "0" with
the output at 1). -/
theorem C4_exact_commands_set_output_witness :
    (gpioCalls (mqtt5_event_handler 2 MQTT_EVENT_DATA
        (mkData MQTT_LED_COMMAND_TOPIC [49] 255)) = [(2, 1)] ∧
      Gpio.run (fun _ => 0) (mqtt5_event_handler 2 MQTT_EVENT_DATA
        (mkData MQTT_LED_COMMAND_TOPIC [49] 255)) 2 = 1) ∧
    (gpioCalls (mqtt5_event_handler 2 MQTT_EVENT_DATA
        (mkData MQTT_LED_COMMAND_TOPIC [48] 255)) = [(2, 0)] ∧
      Gpio.run (fun _ => 1) (mqtt5_event_handler 2 MQTT_EVENT_DATA
        (mkData MQTT_LED_COMMAND_TOPIC [48] 255)) 2 = 0) :=
  ⟨(C4_exact_commands_set_output 2 (mkData MQTT_LED_COMMAND_TOPIC [49] 255) (fun _ => 0)
      (topicIs_mkData _ _ _)).1 (dataIs_mkData _ _ _),
   (C4_exact_commands_set_output 2 (mkData MQTT_LED_COMMAND_TOPIC [48] 255) (fun _ => 1)
      (topicIs_mkData _ _ _)).2 (dataIs_mkData _ _ _)⟩

/-- C5, counterexample: after `led_init` the output is at 0, and a message with the command
topic and payload "1" delivered as the first event, before any connected or subscribed
event, puts the output at 1; the claim says it stays at its startup level. -/
theorem C5_data_before_connected_sets_output :
    Gpio.run (fun _ => 1) (led_init 2) 2 = 0 ∧
    Gpio.run (Gpio.run (fun _ => 1) (led_init 2))
      (deliver 2 [(MQTT_EVENT_DATA, mkData MQTT_LED_COMMAND_TOPIC [49] 255)]) 2 = 1 := by
  decide

/-- C5 as amended: the handler keeps no session state.  At every position of every event
sequence the output after an event is the output before it changed by the calls of that
event alone; so a message with the exact command topic and payload "1" leaves the output
at 1 whatever events were handled before it, in particular as the first event after
startup, and after disconnected, connected, subscribed. -/
theorem C5_output_follows_last_message ( CONFIG_BLINK_GPIO : Nat) (g : Gpio)
    (pre : List (Int × esp_mqtt_event_t)) (e e1 e2 e3 : esp_mqtt_event_t)
    (ht : topicIs e MQTT_LED_COMMAND_TOPIC) (hd : dataIs e [49]) :
    (∀ (event_id : Int) (ev : esp_mqtt_event_t),
      Gpio.run g (deliver CONFIG_BLINK_GPIO (pre ++ [(event_id, ev)])) =
        Gpio.run (Gpio.run g (deliver CONFIG_BLINK_GPIO pre))
          (mqtt5_event_handler CONFIG_BLINK_GPIO event_id ev)) ∧
    Gpio.run (Gpio.run g (led_init CONFIG_BLINK_GPIO))
      (deliver CONFIG_BLINK_GPIO (pre ++ [(MQTT_EVENT_DATA, e)])) CONFIG_BLINK_GPIO = 1 ∧
    Gpio.run (Gpio.run g (led_init CONFIG_BLINK_GPIO))
      (deliver CONFIG_BLINK_GPIO [(MQTT_EVENT_DATA, e)]) CONFIG_BLINK_GPIO = 1 ∧
    Gpio.run (Gpio.run g (led_init CONFIG_BLINK_GPIO))
      (deliver CONFIG_BLINK_GPIO
        [(MQTT_EVENT_DISCONNECTED, e1), (MQTT_EVENT_CONNECTED, e2),
         (MQTT_EVENT_SUBSCRIBED, e3), (MQTT_EVENT_DATA, e)]) CONFIG_BLINK_GPIO = 1 := by
  have hon := gpioCalls_data_on CONFIG_BLINK_GPIO e ht hd
  have key : ∀ (g0 : Gpio) (l : List (Int × esp_mqtt_event_t)),
      Gpio.run g0 (deliver CONFIG_BLINK_GPIO (l ++ [(MQTT_EVENT_DATA, e)]))
        CONFIG_BLINK_GPIO = 1 := by
    intro g0 l
    rw [run_deliver_snoc]
    exact Gpio.run_of_one_gpioCall _ _ _ _ hon
  refine ⟨fun event_id ev => run_deliver_snoc _ g pre event_id ev, key _ pre, key _ [], ?_⟩
  exact key _ [(MQTT_EVENT_DISCONNECTED, e1), (MQTT_EVENT_CONNECTED, e2),
    (MQTT_EVENT_SUBSCRIBED, e3)]

/-- C5 as amended, at the command message "1" delivered first and delivered after
disconnected, connected, subscribed, the pin being at 1 before `led_init`. -/
theorem C5_output_follows_last_message_witness :
    Gpio.run (Gpio.run (fun _ => 1) (led_init 2))
      (deliver 2 [(MQTT_EVENT_DATA, mkData MQTT_LED_COMMAND_TOPIC [49] 255)]) 2 = 1 ∧
    Gpio.run (Gpio.run (fun _ => 1) (led_init 2))
      (deliver 2
        [(MQTT_EVENT_DISCONNECTED, mkPlain 7), (MQTT_EVENT_CONNECTED, mkPlain 7),
         (MQTT_EVENT_SUBSCRIBED, mkPlain 7),
         (MQTT_EVENT_DATA, mkData MQTT_LED_COMMAND_TOPIC [49] 255)]) 2 = 1 :=
  (C5_output_follows_last_message 2 (fun _ => 1) [] (mkData MQTT_LED_COMMAND_TOPIC [49] 255)
    (mkPlain 7) (mkPlain 7) (mkPlain 7) (topicIs_mkData _ _ _) (dataIs_mkData _ _ _)).2.2

/-- C6: for a connected event the handler issues exactly one subscribe request, for the
command topic with QoS 1 on the client of the event, right after its log lines; for every
other event id it issues none.  Over an event sequence each handled event adds its request
exactly when it is a connected event, so the requests are, in order, those of the connected
events and their number is the number of connected events. -/
theorem C6_subscribe_exactly_on_connected ( CONFIG_BLINK_GPIO : Nat) (event_id : Int)
    (e : esp_mqtt_event_t) (pre evs : List (Int × esp_mqtt_event_t)) :
    mqtt5_event_handler CONFIG_BLINK_GPIO MQTT_EVENT_CONNECTED e =
      [ Effect.log .D (.dispatched MQTT_EVENT_CONNECTED),
        Effect.log .I .connected,
        Effect.esp_mqtt_client_subscribe e.client MQTT_LED_COMMAND_TOPIC 1 ] ∧
    subscribeCalls (mqtt5_event_handler CONFIG_BLINK_GPIO event_id e) =
      (if event_id = MQTT_EVENT_CONNECTED then [(e.client, MQTT_LED_COMMAND_TOPIC, 1)]
       else []) ∧
    subscribeCalls (deliver CONFIG_BLINK_GPIO (pre ++ [(event_id, e)])) =
      subscribeCalls (deliver CONFIG_BLINK_GPIO pre) ++
        (if event_id = MQTT_EVENT_CONNECTED then [(e.client, MQTT_LED_COMMAND_TOPIC, 1)]
         else []) ∧
    subscribeCalls (deliver CONFIG_BLINK_GPIO evs) =
      (connectedEvents evs).map (fun ev => (ev.client, MQTT_LED_COMMAND_TOPIC, (1 : Int))) ∧
    (subscribeCalls (deliver CONFIG_BLINK_GPIO evs)).length = (connectedEvents evs).length := by
  refine ⟨rfl, subscribeCalls_handler _ _ _, ?_, subscribeCalls_deliver _ _, ?_⟩
  · rw [deliver_append, subscribeCalls_append, deliver_singleton, subscribeCalls_handler]
  · rw [subscribeCalls_deliver, List.length_map]

/-- C7: for every event whose id is not `MQTT_EVENT_DATA`, whatever its fields (the error
type included), the handler makes no `gpio_set_level` call and the output levels after the
event are those before it. -/
theorem C7_only_data_touches_output ( CONFIG_BLINK_GPIO : Nat) (event_id : Int)
    (e : esp_mqtt_event_t) (g : Gpio) (h : event_id ≠ MQTT_EVENT_DATA) :
    gpioCalls (mqtt5_event_handler CONFIG_BLINK_GPIO event_id e) = [] ∧
    Gpio.run g (mqtt5_event_handler CONFIG_BLINK_GPIO event_id e) = g :=
  ⟨gpioCalls_handler_other _ _ e h,
   Gpio.run_of_no_gpioCalls g _ (gpioCalls_handler_other _ _ e h)⟩

/-- C7 at a disconnected event and at an error event of type connection refused, the
output being at 1. -/
theorem C7_only_data_touches_output_witness :
    Gpio.run (fun _ => 1) (mqtt5_event_handler 2 MQTT_EVENT_DISCONNECTED (mkPlain 7))
      = (fun _ => 1) ∧
    gpioCalls (mqtt5_event_handler 2 MQTT_EVENT_ERROR
      { mkPlain 7 with error_handle := ⟨0, MQTT_ERROR_TYPE_CONNECTION_REFUSED, 5⟩ }) = [] ∧
    Gpio.run (fun _ => 1) (mqtt5_event_handler 2 MQTT_EVENT_ERROR
      { mkPlain 7 with error_handle := ⟨0, MQTT_ERROR_TYPE_CONNECTION_REFUSED, 5⟩ })
      = (fun _ => 1) :=
  ⟨(C7_only_data_touches_output 2 MQTT_EVENT_DISCONNECTED (mkPlain 7) (fun _ => 1)
      (by decide)).2,
   C7_only_data_touches_output 2 MQTT_EVENT_ERROR
      { mkPlain 7 with error_handle := ⟨0, MQTT_ERROR_TYPE_CONNECTION_REFUSED, 5⟩ }
      (fun _ => 1) (by decide)⟩

/-- C8: two message events with equal `topic_len` and `data_len`, whose topic buffers agree
on their first `topic_len` bytes and whose data buffers agree on their first `data_len`
bytes, give the same trace of calls (same log lines, same `gpio_set_level` call or none),
whatever the buffers hold beyond those lengths and whatever their other fields. -/
theorem C8_decision_reads_only_given_lengths ( CONFIG_BLINK_GPIO : Nat)
    (e1 e2 : esp_mqtt_event_t)
    (htl : e1.topic_len = e2.topic_len) (hdl : e1.data_len = e2.data_len)
    (ht : ∀ i, i < e1.topic_len → e1.topic i = e2.topic i)
    (hd : ∀ i, i < e1.data_len → e1.data i = e2.data i) :
    mqtt5_event_handler CONFIG_BLINK_GPIO MQTT_EVENT_DATA e1 =
      mqtt5_event_handler CONFIG_BLINK_GPIO MQTT_EVENT_DATA e2 := by
  have h1 : strncmp e1.topic (cstr MQTT_LED_COMMAND_TOPIC) e1.topic_len =
      strncmp e2.topic (cstr MQTT_LED_COMMAND_TOPIC) e2.topic_len := by
    rw [← htl]
    exact strncmp_congr_left _ _ _ _ ht
  have h2 : strncmp e1.data (cstr [49]) e1.data_len =
      strncmp e2.data (cstr [49]) e2.data_len := by
    rw [← hdl]
    exact strncmp_congr_left _ _ _ _ hd
  have h3 : strncmp e1.data (cstr [48]) e1.data_len =
      strncmp e2.data (cstr [48]) e2.data_len := by
    rw [← hdl]
    exact strncmp_congr_left _ _ _ _ hd
  have h4 : fmtPrecS e1.topic_len e1.topic = fmtPrecS e2.topic_len e2.topic := by
    rw [← htl]
    exact fmtPrecS_congr _ _ _ ht
  have h5 : fmtPrecS e1.data_len e1.data = fmtPrecS e2.data_len e2.data := by
    rw [← hdl]
    exact fmtPrecS_congr _ _ _ hd
  rw [handler_data, handler_data]
  unfold handle_data
  rw [h1, h2, h3, h4, h5]

/-- C8 at two messages with the command topic and payload "1" whose buffers are followed
by bytes 0 in one and by bytes 255 in the other. -/
theorem C8_decision_reads_only_given_lengths_witness :
    mqtt5_event_handler 2 MQTT_EVENT_DATA (mkData MQTT_LED_COMMAND_TOPIC [49] 0) =
      mqtt5_event_handler 2 MQTT_EVENT_DATA (mkData MQTT_LED_COMMAND_TOPIC [49] 255) ∧
    (mkData MQTT_LED_COMMAND_TOPIC [49] 0).data 1 ≠
      (mkData MQTT_LED_COMMAND_TOPIC [49] 255).data 1 :=
  ⟨C8_decision_reads_only_given_lengths 2 (mkData MQTT_LED_COMMAND_TOPIC [49] 0)
      (mkData MQTT_LED_COMMAND_TOPIC [49] 255) rfl rfl
      (fun i hi => ((topicIs_mkData MQTT_LED_COMMAND_TOPIC [49] 0).2 i hi).trans
        ((topicIs_mkData MQTT_LED_COMMAND_TOPIC [49] 255).2 i hi).symm)
      (fun i hi => ((dataIs_mkData MQTT_LED_COMMAND_TOPIC [49] 0).2 i hi).trans
        ((dataIs_mkData MQTT_LED_COMMAND_TOPIC [49] 255).2 i hi).symm),
   by decide⟩

/-- C9: the command topic literal has 30 bytes, none of them NUL, and the topic test
`strncmp(event->topic, MQTT_LED_COMMAND_TOPIC, event->topic_len) == 0` succeeds exactly
when (a) `topic_len <= 30` and the first `topic_len` bytes of the topic are the first
`topic_len` bytes of the literal, or (b) `topic_len > 30`, the first 30 bytes of the topic
are the literal and the byte at index 30 is NUL.  In that case the handler takes the
correct-topic branch; for every other topic its trace is that of the wrong-topic branch. -/
theorem C9_topic_test_characterised ( CONFIG_BLINK_GPIO : Nat) (e : esp_mqtt_event_t) :
    MQTT_LED_COMMAND_TOPIC.length = 30 ∧
    (∀ i, i < 30 → cstr MQTT_LED_COMMAND_TOPIC i ≠ 0) ∧
    (strncmp e.topic (cstr MQTT_LED_COMMAND_TOPIC) e.topic_len = 0 ↔
      (e.topic_len ≤ 30 ∧
        ∀ i, i < e.topic_len → e.topic i = cstr MQTT_LED_COMMAND_TOPIC i) ∨
      (30 < e.topic_len ∧
        (∀ i, i < 30 → e.topic i = cstr MQTT_LED_COMMAND_TOPIC i) ∧ e.topic 30 = 0)) ∧
    (strncmp e.topic (cstr MQTT_LED_COMMAND_TOPIC) e.topic_len = 0 →
      Effect.log .I .correctTopic ∈
        mqtt5_event_handler CONFIG_BLINK_GPIO MQTT_EVENT_DATA e) ∧
    (strncmp e.topic (cstr MQTT_LED_COMMAND_TOPIC) e.topic_len ≠ 0 →
      mqtt5_event_handler CONFIG_BLINK_GPIO MQTT_EVENT_DATA e =
        [ Effect.log .D (.dispatched MQTT_EVENT_DATA),
          Effect.log .I .dataReceived,
          Effect.log .I (.topico (fmtPrecS e.topic_len e.topic)),
          Effect.log .I (.dado (fmtPrecS e.data_len e.data)),
          Effect.log .W .unexpectedTopic ]) := by
  refine ⟨rfl, by decide, topic_test_iff _ _, ?_, handler_data_wrong_topic _ e⟩
  intro ht
  rw [handler_data]
  unfold handle_data
  rw [if_pos ht]
  simp

/-- C9 at the empty topic, at the prefix "/ifpe", and at the topic "/other/topic": the
first two pass the topic test, the third takes the wrong-topic branch. -/
theorem C9_topic_test_characterised_witness :
    strncmp (mkData [] [49] 255).topic (cstr MQTT_LED_COMMAND_TOPIC) 0 = 0 ∧
    Effect.log .I .correctTopic ∈
      mqtt5_event_handler 2 MQTT_EVENT_DATA (mkData [47, 105, 102, 112, 101] [49] 255) ∧
    mqtt5_event_handler 2 MQTT_EVENT_DATA
        (mkData [47, 111, 116, 104, 101, 114, 47, 116, 111, 112, 105, 99] [49] 255) =
      [ Effect.log .D (.dispatched MQTT_EVENT_DATA),
        Effect.log .I .dataReceived,
        Effect.log .I (.topico [47, 111, 116, 104, 101, 114, 47, 116, 111, 112, 105, 99]),
        Effect.log .I (.dado [49]),
        Effect.log .W .unexpectedTopic ] :=
  ⟨((C9_topic_test_characterised 2 (mkData [] [49] 255)).2.2.1).mpr
      (Or.inl ⟨by decide, fun i hi => absurd hi (Nat.not_lt_zero i)⟩),
   (C9_topic_test_characterised 2 (mkData [47, 105, 102, 112, 101] [49] 255)).2.2.2.1
      (by decide),
   (C9_topic_test_characterised 2
      (mkData [47, 111, 116, 104, 101, 114, 47, 116, 111, 112, 105, 99] [49] 255)).2.2.2.2
      (by decide)⟩

/-- C10: once the topic test has succeeded, the handler calls
`gpio_set_level(CONFIG_BLINK_GPIO, 1)` if and only if `data_len = 0`, or `data[0]` is 0x31
and (`data_len = 1` or `data[1]` is NUL); it calls `gpio_set_level(CONFIG_BLINK_GPIO, 0)`
if and only if `data_len >= 1`, `data[0]` is 0x30 and (`data_len = 1` or `data[1]` is NUL);
otherwise it makes no `gpio_set_level` call.  So the empty payload turns the output on, not
off, and so does a three-byte payload 0x31, NUL, x. -/
theorem C10_payload_tests_characterised ( CONFIG_BLINK_GPIO : Nat) (e : esp_mqtt_event_t)
    (ht : strncmp e.topic (cstr MQTT_LED_COMMAND_TOPIC) e.topic_len = 0) :
    (gpioCalls (mqtt5_event_handler CONFIG_BLINK_GPIO MQTT_EVENT_DATA e)
        = [( CONFIG_BLINK_GPIO, 1)] ↔
      (e.data_len = 0 ∨ (e.data 0 = 49 ∧ (e.data_len = 1 ∨ e.data 1 = 0)))) ∧
    (gpioCalls (mqtt5_event_handler CONFIG_BLINK_GPIO MQTT_EVENT_DATA e)
        = [( CONFIG_BLINK_GPIO, 0)] ↔
      (1 ≤ e.data_len ∧ e.data 0 = 48 ∧ (e.data_len = 1 ∨ e.data 1 = 0))) ∧
    (¬ (e.data_len = 0 ∨ (e.data 0 = 49 ∧ (e.data_len = 1 ∨ e.data 1 = 0))) →
      ¬ (1 ≤ e.data_len ∧ e.data 0 = 48 ∧ (e.data_len = 1 ∨ e.data 1 = 0)) →
      gpioCalls (mqtt5_event_handler CONFIG_BLINK_GPIO MQTT_EVENT_DATA e) = []) ∧
    (e.data_len = 0 →
      gpioCalls (mqtt5_event_handler CONFIG_BLINK_GPIO MQTT_EVENT_DATA e)
        = [( CONFIG_BLINK_GPIO, 1)]) ∧
    (e.data_len = 3 → e.data 0 = 49 → e.data 1 = 0 →
      gpioCalls (mqtt5_event_handler CONFIG_BLINK_GPIO MQTT_EVENT_DATA e)
        = [( CONFIG_BLINK_GPIO, 1)]) := by
  have hg := gpioCalls_handler_data CONFIG_BLINK_GPIO e
  rw [if_pos ht] at hg
  have t1 := byte_test_iff e.data e.data_len 49 (by decide)
  have t0 := byte_test_iff e.data e.data_len 48 (by decide)
  have hon : gpioCalls (mqtt5_event_handler CONFIG_BLINK_GPIO MQTT_EVENT_DATA e)
        = [( CONFIG_BLINK_GPIO, 1)] ↔
      (e.data_len = 0 ∨ (e.data 0 = 49 ∧ (e.data_len = 1 ∨ e.data 1 = 0))) := by
    rw [← t1, hg]
    by_cases h1 : strncmp e.data (cstr [49]) e.data_len = 0
    · simp [h1]
    · by_cases h0 : strncmp e.data (cstr [48]) e.data_len = 0
      · simp [h1, h0]
      · simp [h1, h0]
  have hoff : gpioCalls (mqtt5_event_handler CONFIG_BLINK_GPIO MQTT_EVENT_DATA e)
        = [( CONFIG_BLINK_GPIO, 0)] ↔
      (1 ≤ e.data_len ∧ e.data 0 = 48 ∧ (e.data_len = 1 ∨ e.data 1 = 0)) := by
    have hiff : (1 ≤ e.data_len ∧ e.data 0 = 48 ∧ (e.data_len = 1 ∨ e.data 1 = 0)) ↔
        (¬ strncmp e.data (cstr [49]) e.data_len = 0 ∧
          strncmp e.data (cstr [48]) e.data_len = 0) := by
      rw [t1, t0]
      constructor
      · rintro ⟨hl, ha, hb⟩
        refine ⟨?_, Or.inr ⟨ha, hb⟩⟩
        rintro (h | ⟨h, _⟩)
        · omega
        · omega
      · rintro ⟨hn, h | ⟨ha, hb⟩⟩
        · exact absurd (Or.inl h) hn
        · refine ⟨?_, ha, hb⟩
          rcases Nat.eq_zero_or_pos e.data_len with h | h
          · exact absurd (Or.inl h) hn
          · exact h
    rw [hiff, hg]
    by_cases h1 : strncmp e.data (cstr [49]) e.data_len = 0
    · simp [h1]
    · by_cases h0 : strncmp e.data (cstr [48]) e.data_len = 0
      · simp [h1, h0]
      · simp [h1, h0]
  refine ⟨hon, hoff, ?_, ?_, ?_⟩
  · intro hn1 hn0
    have h1 : ¬ strncmp e.data (cstr [49]) e.data_len = 0 := fun h => hn1 (t1.mp h)
    have h0 : ¬ strncmp e.data (cstr [48]) e.data_len = 0 := by
      intro h
      rcases t0.mp h with hz | ⟨ha, hb⟩
      · exact hn1 (Or.inl hz)
      · apply hn0
        refine ⟨?_, ha, hb⟩
        rcases Nat.eq_zero_or_pos e.data_len with hz | hp
        · exact absurd (Or.inl hz) hn1
        · exact hp
    rw [hg, if_neg h1, if_neg h0]
  · intro hz
    exact hon.mpr (Or.inl hz)
  · intro _ ha hb
    exact hon.mpr (Or.inr ⟨ha, Or.inr hb⟩)

/-- C10 at the empty payload and at the payload 0x31, NUL, 0x78 on the command topic: the
handler calls `gpio_set_level(2, 1)` for both. -/
theorem C10_payload_tests_characterised_witness :
    gpioCalls (mqtt5_event_handler 2 MQTT_EVENT_DATA
      (mkData MQTT_LED_COMMAND_TOPIC [] 255)) = [(2, 1)] ∧
    gpioCalls (mqtt5_event_handler 2 MQTT_EVENT_DATA
      (mkData MQTT_LED_COMMAND_TOPIC [49, 0, 120] 255)) = [(2, 1)] :=
  ⟨(C10_payload_tests_characterised 2 (mkData MQTT_LED_COMMAND_TOPIC [] 255)
      (by decide)).2.2.2.1 rfl,
   (C10_payload_tests_characterised 2 (mkData MQTT_LED_COMMAND_TOPIC [49, 0, 120] 255)
      (by decide)).2.2.2.2 rfl rfl rfl⟩

end Esp32Led
